import Mathlib

/-!
Verification development for the SEEDtk kernel scripts: the role-prediction
training driver (build_LDA_predictors.py), the prediction/evaluation driver
(eval_gtos.py), the single-classifier pair (train_classifier.py,
apply_classifier.py) and the manifest builder (manifestmaker.py).

Matrices are embedded as entry functions with explicit dimensions, and each
numpy / filesystem operation the scripts perform is translated operation by
operation.  External library behaviour (scikit-learn model fitting, the
seeded numpy shuffle) is a parameter of the embedding, matching the spec,
which places the machine-learning library outside the system boundary.
-/

/-- Dense numeric matrix as handled by the scripts: explicit row and column
counts together with an entry function (entry r c = value at row r, column c). -/
structure NpMat where
  rows : Nat
  cols : Nat
  entry : Nat → Nat → ℚ

/-- Embedding of np.transpose. -/
def npTranspose (m : NpMat) : NpMat := ⟨m.cols, m.rows, fun i j => m.entry j i⟩

/-- Embedding of np.delete(m, -1, axis=0): drop the last row. -/
def npDeleteLastRow (m : NpMat) : NpMat := ⟨m.rows - 1, m.cols, m.entry⟩

/-- Embedding of fancy column indexing m[:, ind]: column j of the result is
column (ind j) of m. -/
def npFancyCols (m : NpMat) (ind : Nat → Nat) : NpMat :=
  ⟨m.rows, m.cols, fun i j => m.entry i (ind j)⟩

/-- Embedding of np.delete(m, c, axis=1): remove column c, shifting the later
columns left by one. -/
def npDeleteCol (m : NpMat) (c : Nat) : NpMat :=
  ⟨m.rows, m.cols - 1, fun i j => if j < c then m.entry i j else m.entry i (j + 1)⟩

/-- Embedding of row selection m[idx] for a list of row indices. -/
def npRowSelect (m : NpMat) (idx : List Nat) : NpMat :=
  ⟨idx.length, m.cols, fun i j => m.entry (idx.getD i 0) j⟩

/-- Embedding of column selection m[:, idx] for a list of column indices
(used by eval_gtos.py for the LDA_vars subset). -/
def npColSelect (m : NpMat) (idx : List Nat) : NpMat :=
  ⟨m.rows, idx.length, fun i j => m.entry i (idx.getD j 0)⟩

/-- Embedding of the column slice m[:, c] as a vector. -/
def npColVec (m : NpMat) (c : Nat) : Nat → ℚ := fun r => m.entry r c

/-- Python int() and np.asarray(..., dtype=int): truncation toward zero. -/
def pythonTrunc (q : ℚ) : ℤ := if 0 ≤ q then ⌊q⌋ else -⌊-q⌋

/-- Embedding of np.mean of a one-dimensional array. -/
def npMean (l : List ℚ) : ℚ := l.sum / l.length

/-- Insertion into an ascending list; helper for the sort that np.percentile
performs internally. -/
def insertSorted (x : ℚ) : List ℚ → List ℚ
  | [] => [x]
  | y :: ys => if x ≤ y then x :: y :: ys else y :: insertSorted x ys

/-- Ascending sort of the data, as np.percentile performs internally. -/
def sortAsc (l : List ℚ) : List ℚ := l.foldr insertSorted []

/-- Rounding half to even, the rounding mode of np.round. -/
def roundHalfEven (q : ℚ) : ℤ :=
  if q - ⌊q⌋ < 1 / 2 then ⌊q⌋
  else if 1 / 2 < q - ⌊q⌋ then ⌊q⌋ + 1
  else if ⌊q⌋ % 2 = 0 then ⌊q⌋ else ⌊q⌋ + 1

/-- Embedding of np.round(q, 2): round to 2 decimal places, ties to even. -/
def npRound2 (q : ℚ) : ℚ := (roundHalfEven (q * 100) : ℚ) / 100

/-- Embedding of np.percentile(l, p) with the default linear interpolation:
with s the sorted data of length n, the virtual index is h = p/100 * (n-1)
and the result interpolates between s[floor h] and s[floor h + 1]. -/
def npPercentile (l : List ℚ) (p : ℚ) : ℚ :=
  let s := sortAsc l
  let h := p / 100 * ((s.length : ℚ) - 1)
  let i := (⌊h⌋).toNat
  s.getD i 0 + (h - ⌊h⌋) * (s.getD (i + 1) (s.getD i 0) - s.getD i 0)

/-- Shape of the value returned by np.genfromtxt: a 0-d scalar, a 1-d vector
or a 2-d matrix. -/
inductive NpArray where
  | scalar (x : ℚ) : NpArray
  | vector (d : List ℚ) : NpArray
  | matrix (d : List (List ℚ)) : NpArray
deriving DecidableEq

/-- Embedding of np.genfromtxt on a tab-delimited numeric grid: a 1-by-1 grid
collapses to a 0-d scalar, a single row or a single column collapses to a 1-d
vector, anything else is a 2-d matrix. -/
def genfromtxtShape (rowsRead : List (List ℚ)) : NpArray :=
  match rowsRead with
  | [[x]] => NpArray.scalar x
  | [r] => NpArray.vector r
  | _ =>
      if rowsRead.all (fun r => r.length == 1) then
        NpArray.vector (rowsRead.map (fun r => r.headD 0))
      else NpArray.matrix rowsRead

/-- Embedding of len(a.shape). -/
def ndim : NpArray → Nat
  | NpArray.scalar _ => 0
  | NpArray.vector _ => 1
  | NpArray.matrix _ => 2

/-- Embedding of a.reshape(1, -1). -/
def reshapeRow : NpArray → NpArray
  | NpArray.scalar x => NpArray.matrix [[x]]
  | NpArray.vector d => NpArray.matrix [d]
  | NpArray.matrix d => NpArray.matrix [d.flatten]

/-- Matrix loading in eval_gtos.py (lines 74 and 81-82): genfromtxt followed
by a reshape to 1-by-N whenever the result is not 2-dimensional. -/
def evalGtosLoadX (rowsRead : List (List ℚ)) : NpArray :=
  let X := genfromtxtShape rowsRead
  if ndim X ≠ 2 then reshapeRow X else X

/-- Matrix loading in apply_classifier.py (lines 26 and 31-32): same
normalization as eval_gtos.py. -/
def applyClassifierLoadX (rowsRead : List (List ℚ)) : NpArray :=
  let X := genfromtxtShape rowsRead
  if ndim X ≠ 2 then reshapeRow X else X

/-- Matrix loading in build_LDA_predictors.py (line 66): X_all is used exactly
as genfromtxt returns it, with no reshape. -/
def buildLDAPredictorsLoadX (rowsRead : List (List ℚ)) : NpArray :=
  genfromtxtShape rowsRead

/-- Matrix loading in train_classifier.py (line 66): no reshape either. -/
def trainClassifierLoadX (rowsRead : List (List ℚ)) : NpArray :=
  genfromtxtShape rowsRead

/-- Outcome of the module-level input loading of build_LDA_predictors.py. -/
inductive LoadOutcome where
  | fatalExit (code : Int) : LoadOutcome
  | loaded (X : NpArray) (colNames : List (String × String)) : LoadOutcome

/-- Embedding of build_LDA_predictors.py lines 65-75: load X, then col.h, each
wrapped in try/except with sys.exit(-1) on failure.  A parameter value of none
models a file that is missing or unparseable (the except branch); col.h rows
are (index, role-identifier) pairs.  No other validation happens here. -/
def buildLDALoadPhase (xText : Option (List (List ℚ)))
    (colText : Option (List (String × String))) : LoadOutcome :=
  match xText with
  | none => LoadOutcome.fatalExit (-1)
  | some xRows =>
    match colText with
    | none => LoadOutcome.fatalExit (-1)
    | some colRows => LoadOutcome.loaded (genfromtxtShape xRows) colRows

/-- Whether the load phase terminated the script with sys.exit. -/
def isFatalLoad : LoadOutcome → Bool
  | LoadOutcome.fatalExit _ => true
  | LoadOutcome.loaded _ _ => false

/-- Embedding of build_LDA_predictors.py line 103: n_fold = int(1./args.fraction). -/
def n_fold (fraction : ℚ) : ℤ := pythonTrunc (1 / fraction)

/-- Embedding of build_LDA_predictors.py lines 35-42: the accuracy record row,
a classifier-name field followed by numeric fields.  Q is the list of the five
percentiles at 0/25/50/75/100 of the per-fold accuracies, each rounded to two
decimals before the midspread and interquartile-range fields are derived from
it, exactly as in the source (line 38 rounds Q before lines 40-41 use it). -/
def accuracySummaryRow (classifier : String) (accuracies : List ℚ) : List (String ⊕ ℚ) :=
  let Q := ([0, 25, 50, 75, 100] : List ℚ).map (fun p => npRound2 (npPercentile accuracies p))
  [Sum.inl (classifier ++ "Classifier"), Sum.inr (npRound2 (npMean accuracies))]
    ++ Q.map Sum.inr
    ++ [Sum.inr (npRound2 (0.25 * Q.getD 1 0 + 0.5 * Q.getD 2 0 + 0.25 * Q.getD 3 0)),
        Sum.inr (npRound2 (Q.getD 3 0 - Q.getD 1 0))]

/-- Number of numeric fields in a persisted record row. -/
def numericFields (row : List (String ⊕ ℚ)) : Nat := row.countP (fun e => e.isRight)

/-- The classifier-type strings accepted by build_LDA_predictors.py lines
105-136; any other string hits the sys.exit(-1) branch. -/
def supportedClassifiers : List String :=
  ["SVC", "DecisionTree", "RandomForest", "ExtraTrees", "AdaBoost",
   "LogisticRegression", "MultinomialNB", "GaussianNB", "LDA"]

/-- Behaviour of the external libraries, which the spec places outside the
system boundary: permutation seed n models RandomState(seed).permutation(n)
(deterministic in seed and n, the contract of a seeded shuffle), and
fit clfType trainX trainY testX r models building the classifier selected at
lines 105-136 (including its fixed hyper-parameters, e.g. random_state=4721359
for RandomForest), fitting it on (trainX, trainY) and predicting row r of
testX. -/
structure MLLib where
  permutation : Nat → Nat → List Nat
  fit : String → NpMat → (Nat → ℚ) → NpMat → Nat → ℚ

/-- Size of fold i in sklearn KFold on n samples split k ways: n / k plus one
extra for the first n % k folds. -/
def kfoldFoldSize (n k i : Nat) : Nat := n / k + if i < n % k then 1 else 0

/-- Start offset of fold i inside the shuffled index array. -/
def kfoldFoldStart (n k i : Nat) : Nat := i * (n / k) + min i (n % k)

/-- Test indices of fold i: a contiguous chunk of the shuffled index array. -/
def kfoldTestFold (perm : List Nat) (k i : Nat) : List Nat :=
  (perm.drop (kfoldFoldStart perm.length k i)).take (kfoldFoldSize perm.length k i)

/-- Training indices of fold i: every row index not in the test chunk, in
ascending order, as KFold.split yields them. -/
def kfoldTrainFold (perm : List Nat) (k i : Nat) : List Nat :=
  (List.range perm.length).filter (fun r => !((kfoldTestFold perm k i).contains r))

/-- Embedding of the cross-validation loop of make_predictor,
build_LDA_predictors.py lines 23-33: y is column n_col, X is X_all with that
column deleted, the folds come from KFold(n_splits=nFold, shuffle=True,
random_state=30258509), and each fold's accuracy is the exact-match fraction
times 100. -/
def makePredictorAccuracies (lib : MLLib) (clfType : String) (X_all : NpMat)
    (n_col nFold : Nat) : List ℚ :=
  let y := npColVec X_all n_col
  let X := npDeleteCol X_all n_col
  let perm := lib.permutation 30258509 X.rows
  (List.range nFold).map (fun i =>
    let tr := kfoldTrainFold perm nFold i
    let te := kfoldTestFold perm nFold i
    let preds := lib.fit clfType (npRowSelect X tr) (fun r => y (tr.getD r 0)) (npRowSelect X te)
    npMean ((List.range te.length).map (fun r => if preds r = y (te.getD r 0) then (1 : ℚ) else 0)) * 100)

/-- Ambient context that may differ between two invocations of the training
script on the same inputs: the -n worker count, the wall-clock start time and
the order in which pred_to_run is dispatched.  make_predictor (lines 23-33)
reads none of these. -/
structure TrainRunEnv where
  nJobs : Nat
  startTime : ℚ
  dispatchOrder : List Nat

/-- One column's cross-validation as executed inside a particular run of the
training driver: the run context is available but, as in the source, the
computation depends only on the library, classifier type, matrix, column and
fold count. -/
def runColumnTraining (env : TrainRunEnv) (lib : MLLib) (clfType : String)
    (X_all : NpMat) (n_col nFold : Nat) : List ℚ :=
  makePredictorAccuracies lib clfType X_all n_col nFold

/-- State of the probDir as seen by build_LDA_predictors.py lines 77-98:
whether the Predictors directory exists, and per column index whether the
accuracy record file (the completion marker at line 90) and the dumped model
file exist. -/
structure TrainDisk where
  predictorsDirExists : Bool
  accFileExists : Nat → Bool
  modelFileExists : Nat → Bool

/-- Embedding of the pred_to_run computation, build_LDA_predictors.py lines
77-98 (main-process path): with the Predictors directory present and no
--clear, a column is pending exactly when its accuracy file is absent;
with --clear, or with no Predictors directory, every column is pending. -/
def predToRun (d : TrainDisk) (clear : Bool) (nColNames : Nat) : List Nat :=
  if d.predictorsDirExists then
    if clear then List.range nColNames
    else (List.range nColNames).filter (fun i => !(d.accFileExists i))
  else List.range nColNames

/-- Embedding of the pred_completed counter, incremented at line 92 for each
column whose accuracy file exists. -/
def predCompleted (d : TrainDisk) (clear : Bool) (nColNames : Nat) : Nat :=
  if d.predictorsDirExists then
    if clear then 0
    else ((List.range nColNames).filter (fun i => d.accFileExists i)).length
  else 0

/-- Disk state right after the setup block: with --clear and an existing
Predictors directory, shutil.rmtree followed by os.mkdir leaves an empty
directory (lines 82-85); otherwise the artifacts are untouched (a missing
directory is simply created, line 97). -/
def diskAfterSetup (d : TrainDisk) (clear : Bool) : TrainDisk :=
  if d.predictorsDirExists then
    if clear then ⟨true, fun _ => false, fun _ => false⟩ else d
  else ⟨true, d.accFileExists, d.modelFileExists⟩

/-- Embedding of the collected result list of eval_gtos.py line 90 as a
matrix: the parallel map returns one list per task, and the task whose result
lands in slot j is the one for original column retOrder j — run_predictor
appends its own column index to its prediction list (line 31), so row j holds
that task's nRows predictions followed by the column index.  pred c r is the
(opaque, classifier-supplied) prediction of column c at row r. -/
def collectedPredictions (pred : Nat → Nat → ℚ) (nRows nCols : Nat)
    (retOrder : Nat → Nat) : NpMat :=
  ⟨nCols, nRows + 1, fun j r => if r < nRows then pred (retOrder j) r else ((retOrder j : ℚ))⟩

/-- Embedding of eval_gtos.py lines 92-96: transpose the collected results,
read the last row as col_ind (cast to int), delete that row, and reindex the
columns as predictions[:, col_ind]. -/
def reconstructedPredictions (pred : Nat → Nat → ℚ) (nRows nCols : Nat)
    (retOrder : Nat → Nat) : NpMat :=
  let P := npTranspose (collectedPredictions pred nRows nCols retOrder)
  let colInd := fun j => (pythonTrunc (P.entry (P.rows - 1) j)).toNat
  npFancyCols (npDeleteLastRow P) colInd

/-- Claim C1 as stated: for every permutation in which the parallel tasks
return their results, the reconstruction places the prediction for original
column c at column position c. -/
def evalReorderClaim : Prop :=
  ∀ (pred : Nat → Nat → ℚ) (nRows nCols : Nat) (retOrder : Nat → Nat),
    (∀ j, j < nCols → retOrder j < nCols) →
    (∀ i, i < nCols → ∀ j, j < nCols → retOrder i = retOrder j → i = j) →
    ∀ c, c < nCols → ∀ r, r < nRows →
      (reconstructedPredictions pred nRows nCols retOrder).entry r c = pred c r

/-- Embedding of the feature matrix handed to the loaded model in
run_predictor, eval_gtos.py lines 11-27: X is X_all with column n_col
deleted; with --LDA the columns listed in LDA_vars are then selected from X
(the reshape(-1, 1) for a single variable changes only the shape, not which
column is used). -/
def evalFeatures (X_all : NpMat) (n_col : Nat) (useLDA : Bool)
    (varsToUse : List Nat) : NpMat :=
  let X := npDeleteCol X_all n_col
  if useLDA then npColSelect X varsToUse else X

/-- Filesystem write events performed by make_predictor. -/
inductive FsEvent where
  | mkdirDir (path : String) : FsEvent
  | dumpModel (path : String) : FsEvent
  | saveText (path : String) : FsEvent
deriving DecidableEq

/-- Predictor directory for one role, build_LDA_predictors.py line 13. -/
def predDirOf (probDir roleID : String) : String := probDir ++ "/Predictors/" ++ roleID

/-- Classifiers directory, line 16. -/
def clfDirOf (probDir roleID : String) : String := predDirOf probDir roleID ++ "/Classifiers"

/-- Per-classifier directory, line 19. -/
def pklDirOf (probDir classifier roleID : String) : String :=
  clfDirOf probDir roleID ++ "/" ++ classifier ++ "Classifier"

/-- Model artifact path, line 45. -/
def clfFileOf (probDir classifier roleID : String) : String :=
  pklDirOf probDir classifier roleID ++ "/" ++ classifier ++ "Classifier"

/-- Accuracy record path, line 47. -/
def accFileOf (probDir classifier roleID : String) : String :=
  pklDirOf probDir classifier roleID ++ "/accuracy"

/-- Ordered filesystem writes of one make_predictor call, build_LDA_predictors.py
lines 13-21 and 44-48: conditional mkdirs, then joblib.dump of the fitted
model, then np.savetxt of the accuracy record — in that order. -/
def makePredictorEvents (isdir : String → Bool) (probDir classifier roleID : String) :
    List FsEvent :=
  (if isdir (predDirOf probDir roleID) then [] else [FsEvent.mkdirDir (predDirOf probDir roleID)])
  ++ (if isdir (clfDirOf probDir roleID) then [] else [FsEvent.mkdirDir (clfDirOf probDir roleID)])
  ++ (if isdir (pklDirOf probDir classifier roleID) then []
      else [FsEvent.mkdirDir (pklDirOf probDir classifier roleID)])
  ++ [FsEvent.dumpModel (clfFileOf probDir classifier roleID),
      FsEvent.saveText (accFileOf probDir classifier roleID)]

/-- Python str.strip(chars): remove the characters of cs from both ends. -/
def pyStripChars (s : String) (cs : List Char) : String :=
  String.mk (((s.data.dropWhile (fun ch => cs.contains ch)).reverse.dropWhile
    (fun ch => cs.contains ch)).reverse)

/-- Author parsed from the sample-list path, manifestmaker.py lines 7-10:
last path segment, split on underscore, first piece. -/
def parseAuthor (fullPath : String) : String :=
  (((fullPath.splitOn "/").getLastD "").splitOn "_").headD ""

/-- Sample type parsed from the sample-list path, manifestmaker.py line 11:
second underscore piece with the characters of ".csv" stripped from both
ends.  Python indexing naming_list[1] raises where getD defaults. -/
def parseSampleType (fullPath : String) : String :=
  pyStripChars ((((fullPath.splitOn "/").getLastD "").splitOn "_").getD 1 "")
    ['.', 'c', 's', 'v']

/-- Python equality between a str and a list, as in line 29 of
manifestmaker.py (sample != sample_names[:-1]): values of different types are
never equal, so the == is always False and the != always True. -/
def pyStrEqListStr (s : String) (l : List String) : Bool := false

/-- Row written for one sample, manifestmaker.py line 27. -/
def manifestRow (author sampleType sample : String) : String :=
  sample ++ "\t" ++ "/vol/mg-binning/Parkinsons/" ++ sampleType ++ "/" ++ author
    ++ "/" ++ sample ++ "/" ++ sample
    ++ "_1.fastq\t/vol/mg-binning/Parkinsons/" ++ sampleType ++ "/" ++ author
    ++ "/" ++ sample ++ "/" ++ sample ++ "_2.fastq"

/-- Chunks written to the manifest file, manifestmaker.py lines 24-30: the
fixed header line, then per sample its row followed by a newline whenever the
line-29 comparison is unequal (which, comparing a str to a list, it always
is). -/
def manifestWrites (fullPath : String) (sampleNames : List String) : List String :=
  "sample-id\tforward-absolute-filepath\treverse-absolute-filepath\n" ::
  sampleNames.map (fun sample =>
    manifestRow (parseAuthor fullPath) (parseSampleType fullPath) sample
      ++ (if pyStrEqListStr sample (sampleNames.dropLast) then "" else "\n"))

/-- Helper: the data of an appended string is the appended data. -/
theorem stringDataAppend (a b : String) : (a ++ b).data = a.data ++ b.data := rfl

/-- Helper: Python truncation agrees with the identity on natural values. -/
theorem pythonTruncNatCast (n : Nat) : pythonTrunc ((n : ℚ)) = (n : ℤ) := by
  unfold pythonTrunc
  rw [if_pos (by positivity), Int.floor_natCast]

/-- Helper: toNat composed with pythonTrunc recovers a natural value. -/
theorem pythonTruncNatCastToNat (n : Nat) : (pythonTrunc ((n : ℚ))).toNat = n := by
  rw [pythonTruncNatCast, Int.toNat_natCast]

/-- Helper: the lengths of a filter and of the complementary filter add up to
the length of the list. -/
theorem filterLengthCompl (p : Nat → Bool) (l : List Nat) :
    (l.filter p).length + (l.filter (fun x => !(p x))).length = l.length := by
  induction l with
  | nil => rfl
  | cons a t ih =>
      cases h : p a <;> simp [List.filter, h] <;> omega

/-- Helper: in a list of the shape pre ++ [a, b] with b occurring nowhere
else, any take-window containing b also contains a. -/
theorem memTakeOfPair {α : Type} (pre : List α) (a b : α) (n : Nat)
    (hne : b ≠ a) (hpre : b ∉ pre)
    (h : b ∈ (pre ++ [a, b]).take n) : a ∈ (pre ++ [a, b]).take n := by
  rw [List.take_append_eq_append_take] at h ⊢
  rcases List.mem_append.mp h with h1 | h2
  · exact absurd (List.take_subset _ _ h1) hpre
  · refine List.mem_append.mpr (Or.inr ?_)
    rcases hm : n - pre.length with _ | m
    · rw [hm] at h2; simp at h2
    · rcases m with _ | m
      · rw [hm] at h2; simp at h2; exact absurd h2 hne
      · simp [List.take]

/-- Claim C1 (counterexample): the reconstruction of eval_gtos.py lines 92-96
does not place results correctly for every return permutation.  The code
computes predictions[:, col_ind], which applies the return permutation
forward instead of inverting it: for the 3-cycle return order 0 -> 1 -> 2 -> 0
on a 3-column, 1-row matrix whose column-c prediction is the constant c, the
entry at row 0, column 0 of the reconstructed matrix is 2, not 0. -/
theorem evalReorderClaimFalse : ¬ evalReorderClaim := by
  intro h
  have h2 := h (fun c _ => (c : ℚ)) 1 3 (fun j => (j + 1) % 3)
    (by decide) (by decide) 0 (by decide) 0 (by decide)
  have h3 : (reconstructedPredictions (fun c _ => (c : ℚ)) 1 3
      (fun j => (j + 1) % 3)).entry 0 0 = ((2 : Nat) : ℚ) := by
    simp [reconstructedPredictions, npFancyCols, npDeleteLastRow, npTranspose,
      collectedPredictions, pythonTruncNatCast]
  rw [h3] at h2
  norm_num at h2

/-- Claim C1 (amended): the reconstruction is correct whenever the return
permutation is its own inverse — in particular in the identity order, which
joblib.Parallel in fact guarantees by returning results in dispatch order.
For such a return order, the prediction for original column c ends up at
column position c of the reconstructed matrix. -/
theorem reconstructedPredictionsCorrectOfInvolutive (pred : Nat → Nat → ℚ)
    (nRows nCols : Nat) (retOrder : Nat → Nat)
    (hinv : ∀ j, j < nCols → retOrder (retOrder j) = j)
    (c : Nat) (hc : c < nCols) (r : Nat) (hr : r < nRows) :
    (reconstructedPredictions pred nRows nCols retOrder).entry r c = pred c r := by
  have h1 : (reconstructedPredictions pred nRows nCols retOrder).entry r c
      = if r < nRows then pred (retOrder (retOrder c)) r
        else ((retOrder (retOrder c) : ℚ)) := by
    simp [reconstructedPredictions, npFancyCols, npDeleteLastRow, npTranspose,
      collectedPredictions, pythonTruncNatCastToNat]
  rw [h1, if_pos hr, hinv c hc]

/-- Witness for the amended claim C1 at the identity return order on a
2-column, 1-row matrix. -/
theorem reconstructedPredictionsCorrectWitness :
    (reconstructedPredictions (fun c r => (c : ℚ) + r) 1 2 (fun j => j)).entry 0 1
      = ((1 : Nat) : ℚ) + 0 :=
  reconstructedPredictionsCorrectOfInvolutive (fun c r => (c : ℚ) + r) 1 2
    (fun j => j) (fun _ _ => rfl) 1 (by decide) 0 (by decide)

/-- Claim C2 (counterexample): with a 2-column matrix X and a 1-row column
name table, the load phase of build_LDA_predictors.py succeeds (no sys.exit),
even though the cardinalities disagree — no mismatch check exists at load
time. -/
theorem loadMismatchNotFatal :
    ([("0", "RoleA")] : List (String × String)).length
        ≠ (([[(1 : ℚ), 2], [3, 4]] : List (List ℚ)).headD []).length
      ∧ isFatalLoad (buildLDALoadPhase (some [[(1 : ℚ), 2], [3, 4]])
          (some [("0", "RoleA")])) = false := by
  exact ⟨by decide, rfl⟩

/-- Claim C2 (amended): the load phase of build_LDA_predictors.py lines 65-75
exits fatally exactly when the X file or the col.h file fails to parse; the
cardinality of the column-name table is never compared to the matrix column
count, so a mismatched pair of inputs loads successfully and the driver
proceeds toward training. -/
theorem loadPhaseFatalIffParseFailure (xText : Option (List (List ℚ)))
    (colText : Option (List (String × String))) :
    isFatalLoad (buildLDALoadPhase xText colText) = true
      ↔ (xText = none ∨ colText = none) := by
  cases xText <;> cases colText <;> simp [buildLDALoadPhase, isFatalLoad]

/-- Claim C3 (counterexample): at the accepted test fraction 3/5, the fold
count computed by build_LDA_predictors.py line 103 is int(1/(3/5)) = 1, while
the nearest integer to 1/(3/5) = 5/3 is 2. -/
theorem nFoldNeRound : n_fold (3 / 5) ≠ round ((1 : ℚ) / (3 / 5)) := by
  have h1 : n_fold (3 / 5) = 1 := by
    unfold n_fold pythonTrunc
    rw [if_pos (by norm_num)]
    norm_num
  have h2 : round ((1 : ℚ) / (3 / 5)) = 2 := by
    norm_num [round_eq]
  rw [h1, h2]
  decide

/-- Claim C3 (amended): for every positive test fraction, the fold count
n_fold = int(1./fraction) is the truncation of the reciprocal, i.e. its
floor — not the nearest integer. -/
theorem nFoldEqFloor (fraction : ℚ) (hf : 0 < fraction) :
    n_fold fraction = ⌊1 / fraction⌋ := by
  unfold n_fold pythonTrunc
  rw [if_pos (le_of_lt (by positivity))]

/-- Witness for the amended claim C3 at fraction 1/5. -/
theorem nFoldEqFloorWitness : (0 : ℚ) < 1 / 5 ∧ n_fold (1 / 5) = ⌊(1 : ℚ) / (1 / 5)⌋ :=
  ⟨by norm_num, nFoldEqFloor (1 / 5) (by norm_num)⟩

/-- Claim C4 (counterexample): the persisted accuracy record does not have 5
numeric fields; for the classifier type LDA and the two per-fold accuracies
100 and 50 it has 8. -/
theorem accuracyRecordNotFiveNumeric :
    numericFields (accuracySummaryRow "LDA" [100, 50]) ≠ 5 := by decide

/-- Claim C4 (amended): for every classifier type and accuracy list, the
persisted accuracy record is the classifier name followed by 8 numeric fields
(not 5): the rounded mean, the rounded 0/25/50/75/100th percentiles
Q0..Q100, the weighted midspread 0.25*Q25 + 0.5*Q50 + 0.25*Q75, and the
interquartile range Q75 - Q25 — the last two computed from the
already-rounded percentiles, and every numeric field rounded to 2 decimal
places. -/
theorem accuracyRecordFields (classifier : String) (accuracies : List ℚ) :
    (accuracySummaryRow classifier accuracies).length = 9
    ∧ numericFields (accuracySummaryRow classifier accuracies) = 8
    ∧ (accuracySummaryRow classifier accuracies).getD 0 (Sum.inl "")
        = Sum.inl (classifier ++ "Classifier")
    ∧ (accuracySummaryRow classifier accuracies).getD 1 (Sum.inl "")
        = Sum.inr (npRound2 (npMean accuracies))
    ∧ (accuracySummaryRow classifier accuracies).getD 2 (Sum.inl "")
        = Sum.inr (npRound2 (npPercentile accuracies 0))
    ∧ (accuracySummaryRow classifier accuracies).getD 3 (Sum.inl "")
        = Sum.inr (npRound2 (npPercentile accuracies 25))
    ∧ (accuracySummaryRow classifier accuracies).getD 4 (Sum.inl "")
        = Sum.inr (npRound2 (npPercentile accuracies 50))
    ∧ (accuracySummaryRow classifier accuracies).getD 5 (Sum.inl "")
        = Sum.inr (npRound2 (npPercentile accuracies 75))
    ∧ (accuracySummaryRow classifier accuracies).getD 6 (Sum.inl "")
        = Sum.inr (npRound2 (npPercentile accuracies 100))
    ∧ (accuracySummaryRow classifier accuracies).getD 7 (Sum.inl "")
        = Sum.inr (npRound2 (0.25 * npRound2 (npPercentile accuracies 25)
            + 0.5 * npRound2 (npPercentile accuracies 50)
            + 0.25 * npRound2 (npPercentile accuracies 75)))
    ∧ (accuracySummaryRow classifier accuracies).getD 8 (Sum.inl "")
        = Sum.inr (npRound2 (npRound2 (npPercentile accuracies 75)
            - npRound2 (npPercentile accuracies 25))) :=
  ⟨rfl, rfl, rfl, rfl, rfl, rfl, rfl, rfl, rfl, rfl, rfl⟩

/-- Claim C5 (confirmed): in training (build_LDA_predictors.py lines 23-24)
and in prediction (eval_gtos.py lines 11-27), the label vector is column
n_col of the input matrix itself, and every column of the feature matrix
handed to the classifier is some column of the input matrix other than
n_col — no column ever appears in its own feature set, with or without the
LDA variable subset. -/
theorem targetColumnExcluded (X_all : NpMat) (n_col : Nat) :
    npColVec X_all n_col = (fun r => X_all.entry r n_col)
    ∧ (∀ j, j < (npDeleteCol X_all n_col).cols →
        ∃ j2, j2 ≠ n_col ∧ ∀ r, (npDeleteCol X_all n_col).entry r j = X_all.entry r j2)
    ∧ (∀ (useLDA : Bool) (varsToUse : List Nat) (j : Nat),
        j < (evalFeatures X_all n_col useLDA varsToUse).cols →
        ∃ j2, j2 ≠ n_col ∧ ∀ r,
          (evalFeatures X_all n_col useLDA varsToUse).entry r j = X_all.entry r j2) := by
  refine ⟨rfl, ?_, ?_⟩
  · intro j hj
    by_cases h : j < n_col
    · exact ⟨j, Nat.ne_of_lt h, fun r => by simp [npDeleteCol, h]⟩
    · exact ⟨j + 1, by omega, fun r => by simp [npDeleteCol, h]⟩
  · intro useLDA varsToUse j hj
    cases useLDA with
    | false =>
        simp only [evalFeatures, Bool.false_eq_true, if_false] at hj ⊢
        by_cases h : j < n_col
        · exact ⟨j, Nat.ne_of_lt h, fun r => by simp [npDeleteCol, h]⟩
        · exact ⟨j + 1, by omega, fun r => by simp [npDeleteCol, h]⟩
    | true =>
        simp only [evalFeatures, if_true] at hj ⊢
        by_cases h : varsToUse.getD j 0 < n_col
        · refine ⟨varsToUse.getD j 0, Nat.ne_of_lt h, fun r => ?_⟩
          show (if varsToUse.getD j 0 < n_col then X_all.entry r (varsToUse.getD j 0)
            else X_all.entry r (varsToUse.getD j 0 + 1)) = X_all.entry r (varsToUse.getD j 0)
          rw [if_pos h]
        · refine ⟨varsToUse.getD j 0 + 1, by omega, fun r => ?_⟩
          show (if varsToUse.getD j 0 < n_col then X_all.entry r (varsToUse.getD j 0)
            else X_all.entry r (varsToUse.getD j 0 + 1)) = X_all.entry r (varsToUse.getD j 0 + 1)
          rw [if_neg h]

/-- Witness for claim C5 on a concrete 1-by-2 matrix with target column 0. -/
theorem targetColumnExcludedWitness :
    ∃ j2, j2 ≠ 0 ∧ ∀ r,
      (npDeleteCol (⟨1, 2, fun r j => (r : ℚ) + j⟩ : NpMat) 0).entry r 0
        = (⟨1, 2, fun r j => (r : ℚ) + j⟩ : NpMat).entry r j2 :=
  (targetColumnExcluded (⟨1, 2, fun r j => (r : ℚ) + j⟩ : NpMat) 0).2.1 0 (by decide)

/-- Claim C6 (confirmed): the per-fold accuracy sequence of one column's
trainer is deterministic.  Two runs may differ in their ambient context
(worker count, start time, dispatch order) and in their library instances;
provided the libraries honour the seeded-determinism contract — the shuffle
at the fixed seed 30258509 and the fit/predict behaviour of the (supported)
classifier agree between the runs — the resulting accuracy sequences are
identical, in the same order: the orchestration code introduces no other
source of run-to-run variation. -/
theorem foldAccuraciesDeterministic (env1 env2 : TrainRunEnv) (lib1 lib2 : MLLib)
    (clfType : String) (X_all : NpMat) (n_col nFold : Nat)
    (hclf : clfType ∈ supportedClassifiers)
    (hperm : lib1.permutation 30258509 = lib2.permutation 30258509)
    (hfit : lib1.fit = lib2.fit) :
    runColumnTraining env1 lib1 clfType X_all n_col nFold
      = runColumnTraining env2 lib2 clfType X_all n_col nFold := by
  unfold runColumnTraining makePredictorAccuracies
  rw [hperm, hfit]

/-- Witness for claim C6: two runs with different worker counts, start times
and dispatch orders over the same library produce the same accuracy list. -/
theorem foldAccuraciesDeterministicWitness :
    runColumnTraining ⟨16, 0, [0, 1]⟩
        ⟨fun _ n => List.range n, fun _ _ _ _ _ => 0⟩ "RandomForest"
        (⟨2, 2, fun _ _ => 1⟩ : NpMat) 0 2
      = runColumnTraining ⟨32, 5, [1, 0]⟩
        ⟨fun _ n => List.range n, fun _ _ _ _ _ => 0⟩ "RandomForest"
        (⟨2, 2, fun _ _ => 1⟩ : NpMat) 0 2 :=
  foldAccuraciesDeterministic ⟨16, 0, [0, 1]⟩ ⟨32, 5, [1, 0]⟩
    ⟨fun _ n => List.range n, fun _ _ _ _ _ => 0⟩
    ⟨fun _ n => List.range n, fun _ _ _ _ _ => 0⟩
    "RandomForest" (⟨2, 2, fun _ _ => 1⟩ : NpMat) 0 2 (by decide) rfl rfl

/-- Claim C7 (counterexample): not every script normalizes a 1-row matrix to
shape (1, N): build_LDA_predictors.py line 66 keeps the 1-dimensional array
genfromtxt returns for the single-row input [[1, 2, 3]]. -/
theorem buildLDASingleRowNot2D :
    ndim (buildLDAPredictorsLoadX [[(1 : ℚ), 2, 3]]) ≠ 2 := by decide

/-- Claim C7 (amended): for a single-row input, the loaders of eval_gtos.py
and apply_classifier.py yield the 2-dimensional shape (1, N), while the
loaders of build_LDA_predictors.py and train_classifier.py perform no
reshape and leave the parsed result with fewer than 2 dimensions. -/
theorem singleRowLoadShapes (row : List ℚ) (hne : row ≠ []) :
    evalGtosLoadX [row] = NpArray.matrix [row]
    ∧ applyClassifierLoadX [row] = NpArray.matrix [row]
    ∧ ndim (buildLDAPredictorsLoadX [row]) ≠ 2
    ∧ ndim (trainClassifierLoadX [row]) ≠ 2 := by
  rcases row with _ | ⟨a, rest⟩
  · exact absurd rfl hne
  rcases rest with _ | ⟨b, t⟩
  · exact ⟨rfl, rfl, by show (0 : Nat) ≠ 2; decide, by show (0 : Nat) ≠ 2; decide⟩
  · exact ⟨rfl, rfl, by show (1 : Nat) ≠ 2; decide, by show (1 : Nat) ≠ 2; decide⟩

/-- Witness for the amended claim C7 on the single-row matrix [[5, 7]]. -/
theorem singleRowLoadShapesWitness :
    evalGtosLoadX [[(5 : ℚ), 7]] = NpArray.matrix [[(5 : ℚ), 7]] :=
  (singleRowLoadShapes [(5 : ℚ), 7] (by decide)).1

/-- Claim C8 (confirmed): in the training driver, without --clear a column is
dispatched (is in pred_to_run) exactly when its accuracy record file does not
exist, and the pending and already-trained columns partition the column
range; with --clear every column is pending and the setup block has discarded
every prior accuracy record and model artifact.  The consistency hypothesis
says only that files inside a non-existent Predictors directory do not
exist. -/
theorem pendingPartitionAndClear (d : TrainDisk) (nColNames : Nat)
    (hcons : d.predictorsDirExists = false →
      (∀ i, d.accFileExists i = false) ∧ (∀ i, d.modelFileExists i = false)) :
    (∀ i, i ∈ predToRun d false nColNames ↔ i < nColNames ∧ d.accFileExists i = false)
    ∧ predCompleted d false nColNames + (predToRun d false nColNames).length = nColNames
    ∧ predToRun d true nColNames = List.range nColNames
    ∧ (∀ i, (diskAfterSetup d true).accFileExists i = false)
    ∧ (∀ i, (diskAfterSetup d true).modelFileExists i = false) := by
  cases hd : d.predictorsDirExists with
  | true =>
      refine ⟨?_, ?_, ?_, ?_, ?_⟩
      · intro i
        simp [predToRun, hd, List.mem_filter, List.mem_range, Bool.not_eq_true', and_comm]
      · have hlen := filterLengthCompl (fun i => d.accFileExists i) (List.range nColNames)
        simpa [predCompleted, predToRun, hd] using hlen
      · simp [predToRun, hd]
      · intro i; simp [diskAfterSetup, hd]
      · intro i; simp [diskAfterSetup, hd]
  | false =>
      obtain ⟨hacc, hmodel⟩ := hcons hd
      refine ⟨?_, ?_, ?_, ?_, ?_⟩
      · intro i
        simp [predToRun, hd, List.mem_range, hacc i]
      · simp [predCompleted, predToRun, hd]
      · simp [predToRun, hd]
      · intro i; simpa [diskAfterSetup, hd] using hacc i
      · intro i; simpa [diskAfterSetup, hd] using hmodel i

/-- Witness for claim C8 on a concrete disk where only column 0 is already
trained: column 1 is pending. -/
theorem pendingPartitionAndClearWitness :
    1 ∈ predToRun (⟨true, fun i => i == 0, fun i => i == 0⟩ : TrainDisk) false 2
      ↔ 1 < 2 ∧ (⟨true, fun i => i == 0, fun i => i == 0⟩ : TrainDisk).accFileExists 1 = false :=
  (pendingPartitionAndClear (⟨true, fun i => i == 0, fun i => i == 0⟩ : TrainDisk) 2
    (fun h => Bool.noConfusion h)).1 1

/-- Claim C9 (confirmed): the manifest builder writes the fixed header line
followed by exactly one row per sample in input order; each row is the sample
id, a tab, a forward path ending in _1.fastq, a tab, and a reverse path
ending in _2.fastq, with the paths synthesized from the author and sample
type parsed out of the input file name. -/
theorem manifestOutputFormat (fullPath : String) (sampleNames : List String) :
    manifestWrites fullPath sampleNames
      = "sample-id\tforward-absolute-filepath\treverse-absolute-filepath\n" ::
        sampleNames.map (fun sample =>
          manifestRow (parseAuthor fullPath) (parseSampleType fullPath) sample ++ "\n")
    ∧ ∀ author sampleType sample, ∃ fwd rev,
        manifestRow author sampleType sample = sample ++ "\t" ++ fwd ++ "\t" ++ rev
        ∧ (∃ p, fwd = p ++ "_1.fastq") ∧ (∃ p, rev = p ++ "_2.fastq") := by
  constructor
  · simp [manifestWrites, pyStrEqListStr]
  · intro author sampleType sample
    refine ⟨"/vol/mg-binning/Parkinsons/" ++ sampleType ++ "/" ++ author ++ "/" ++ sample
        ++ "/" ++ sample ++ "_1.fastq",
      "/vol/mg-binning/Parkinsons/" ++ sampleType ++ "/" ++ author ++ "/" ++ sample
        ++ "/" ++ sample ++ "_2.fastq", ?_, ⟨_, rfl⟩, ⟨_, rfl⟩⟩
    apply String.ext
    simp only [manifestRow, stringDataAppend, List.append_assoc, List.cons_append,
      List.nil_append]

/-- Claim C10 (confirmed): within one make_predictor call the joblib.dump of
the model precedes the np.savetxt of the accuracy record, so every prefix of
its filesystem-event trace (every point at which the call could have been
interrupted) that contains the accuracy write also contains the model dump:
whenever the completion marker exists, the model artifact exists. -/
theorem modelDumpedBeforeAccuracy (isdir : String → Bool)
    (probDir classifier roleID : String) (n : Nat)
    (h : FsEvent.saveText (accFileOf probDir classifier roleID)
        ∈ (makePredictorEvents isdir probDir classifier roleID).take n) :
    FsEvent.dumpModel (clfFileOf probDir classifier roleID)
      ∈ (makePredictorEvents isdir probDir classifier roleID).take n := by
  unfold makePredictorEvents at h ⊢
  refine memTakeOfPair _ _ _ n ?_ ?_ h
  · intro heq; exact FsEvent.noConfusion heq
  · intro hmem
    rcases List.mem_append.mp hmem with hmem | hmem
    · rcases List.mem_append.mp hmem with hmem | hmem
      · split_ifs at hmem
        · exact List.not_mem_nil _ hmem
        · exact FsEvent.noConfusion (List.mem_singleton.mp hmem)
      · split_ifs at hmem
        · exact List.not_mem_nil _ hmem
        · exact FsEvent.noConfusion (List.mem_singleton.mp hmem)
    · split_ifs at hmem
      · exact List.not_mem_nil _ hmem
      · exact FsEvent.noConfusion (List.mem_singleton.mp hmem)

/-- Witness for claim C10: with all directories present, the first two events
are the dump and the accuracy write, and the dump is inside the window. -/
theorem modelDumpedBeforeAccuracyWitness :
    FsEvent.dumpModel (clfFileOf "p" "RF" "r")
      ∈ (makePredictorEvents (fun _ => true) "p" "RF" "r").take 2 :=
  modelDumpedBeforeAccuracy (fun _ => true) "p" "RF" "r" 2 (by decide)
